import Mathlib

/-!
Verification of the pubsub-sse core (Go): a shallow embedding of
src/client.go, src/unnamed/part_000 (the SSE handler) and the topic-level
publisher from src/_example/web/pubsub-sse.js, together with theorems about
the claims of the specification.

Go maps are modelled as association lists iterated in insertion order;
channel sends are modelled as appending to the receiving client's stream
list; json.Marshal is modelled by an executable encoder that reproduces
Go's encoding of the eventData structures, including the nil-slice vs
empty-slice distinction and the omitempty tags.
-/

namespace PubSubSSE

/-- Go interface values as fed to json.Marshal. `obj` models a
map[string]interface with keys sorted at encoding time, as Go does; the
`unsupported` constructor models values (channels, functions) on which
json.Marshal returns an UnsupportedTypeError. -/
inductive GoValue where
  | null : GoValue
  | bool : Bool → GoValue
  | num : Int → GoValue
  | str : String → GoValue
  | arr : List GoValue → GoValue
  | obj : List (String × GoValue) → GoValue
  | unsupported : String → GoValue

/-- One hex digit, lowercase, as encoding/json prints it. -/
def hexDigit (n : Nat) : String :=
  if n < 10 then toString n else String.singleton (Char.ofNat (97 + n - 10))

/-- Go's encoding/json escaping of one character inside a string literal
(with the default HTML escaping of angle brackets and ampersands). -/
def escapeChar (c : Char) : String :=
  if c = '"' then "\\\""
  else if c = '\\' then "\\\\"
  else if c = '\n' then "\\n"
  else if c = '\r' then "\\r"
  else if c = '\t' then "\\t"
  else if c = '<' then "\\u003c"
  else if c = '>' then "\\u003e"
  else if c = '&' then "\\u0026"
  else if c.toNat < 32 then "\\u00" ++ hexDigit (c.toNat / 16) ++ hexDigit (c.toNat % 16)
  else if c.toNat = 8232 then "\\u2028"
  else if c.toNat = 8233 then "\\u2029"
  else String.singleton c

/-- Go's encoding/json escaping of a whole string. -/
def escapeString (s : String) : String :=
  String.join (s.toList.map escapeChar)

/-- A JSON string literal as encoding/json emits it. -/
def quote (s : String) : String :=
  "\"" ++ escapeString s ++ "\""

/-- Insert a marshaled field into a key-sorted list (encoding/json sorts
map keys before emitting them). -/
def insertSorted (p : String × String) : List (String × String) → List (String × String)
  | [] => [p]
  | q :: rest => if p.1 ≤ q.1 then p :: q :: rest else q :: insertSorted p rest

/-- Sort marshaled map fields by key, as encoding/json does. -/
def sortPairs (l : List (String × String)) : List (String × String) :=
  l.foldr insertSorted []

mutual

/-- json.Marshal on a Go interface value; none models the marshal error
for unsupported values. Map keys are sorted after the recursive encoding,
which yields the same string Go produces by sorting keys first. -/
def marshalGoValue : GoValue → Option String
  | GoValue.null => some ("null")
  | GoValue.bool b => some (if b then "true" else "false")
  | GoValue.num n => some (toString n)
  | GoValue.str s => some (quote s)
  | GoValue.arr xs =>
      match marshalArr xs with
      | none => none
      | some parts => some ("[" ++ String.intercalate ("," ) parts ++ "]")
  | GoValue.obj fs =>
      match marshalFields fs with
      | none => none
      | some parts =>
          some ("\x7b" ++
            String.intercalate ("," )
              ((sortPairs parts).map (fun kv => quote kv.1 ++ ":" ++ kv.2)) ++ "\x7d")
  | GoValue.unsupported _ => none

/-- Marshal the elements of a JSON array. -/
def marshalArr : List GoValue → Option (List String)
  | [] => some []
  | x :: xs =>
      match marshalGoValue x, marshalArr xs with
      | some s, some rest => some (s :: rest)
      | _, _ => none

/-- Marshal the fields of a JSON object, keeping their keys. -/
def marshalFields : List (String × GoValue) → Option (List (String × String))
  | [] => some []
  | (k, v) :: xs =>
      match marshalGoValue v, marshalFields xs with
      | some s, some rest => some ((k, s) :: rest)
      | _, _ => none

end

/-- go: eventDataSysList in src/client.go (fields name, then type with
omitempty; the empty string stands for an absent type). -/
structure EventDataSysList where
  name : String
  type : String
deriving DecidableEq, Repr

/-- go: eventDataSys in src/client.go (field type, then list with
omitempty). -/
structure EventDataSys where
  type : String
  list : List EventDataSysList
deriving DecidableEq, Repr

/-- go: eventDataUpdates in src/client.go. -/
structure EventDataUpdates where
  topic : String
  data : GoValue

/-- go: eventData in src/client.go. The sys and updates fields carry no
omitempty tag, so a Go nil slice (modelled as none) marshals to null while
an empty non-nil slice (some of the empty list) marshals to an empty
array. -/
structure EventData where
  sys : Option (List EventDataSys)
  updates : Option (List EventDataUpdates)

/-- json.Marshal of one eventDataSysList value. -/
def marshalSysList (e : EventDataSysList) : String :=
  "\x7b" ++ quote ("name") ++ ":" ++ quote e.name ++
    (if e.type = "" then "" else "," ++ quote ("type") ++ ":" ++ quote e.type) ++ "\x7d"

/-- json.Marshal of one eventDataSys value (list carries omitempty). -/
def marshalSys (e : EventDataSys) : String :=
  "\x7b" ++ quote ("type") ++ ":" ++ quote e.type ++
    (if e.list.isEmpty then ""
     else "," ++ quote ("list") ++ ":" ++
       "[" ++ String.intercalate ("," ) (e.list.map marshalSysList) ++ "]") ++ "\x7d"

/-- json.Marshal of one eventDataUpdates value; fails when the opaque data
cannot be marshaled. -/
def marshalUpdate (u : EventDataUpdates) : Option String :=
  match marshalGoValue u.data with
  | none => none
  | some d =>
      some ("\x7b" ++ quote ("topic") ++ ":" ++ quote u.topic ++ "," ++
        quote ("data") ++ ":" ++ d ++ "\x7d")

/-- Marshal an optional slice: a Go nil slice becomes null, otherwise a
JSON array of the encoded elements. -/
def marshalOptList (f : α → Option String) : Option (List α) → Option String
  | none => some ("null")
  | some xs =>
      match xs.mapM f with
      | none => none
      | some parts => some ("[" ++ String.intercalate ("," ) parts ++ "]")

/-- json.Marshal of a whole eventData frame, fields in declaration order
(sys, then updates). -/
def marshalEventData (e : EventData) : Option String :=
  match marshalOptList (fun x => some (marshalSys x)) e.sys,
        marshalOptList marshalUpdate e.updates with
  | some sysStr, some updStr =>
      some ("\x7b" ++ quote ("sys") ++ ":" ++ sysStr ++ "," ++
        quote ("updates") ++ ":" ++ updStr ++ "\x7d")
  | _, _ => none

/-- go: status in src/client.go (Waiting = the stream is not being
drained, Receving = it is; the source spells it Receving). -/
inductive Status where
  | Waiting : Status
  | Receving : Status
deriving DecidableEq, Repr

/-- Topic visibility. The topic struct itself is not among the source
files (only its uses are); the visibility values are Modelled from the
spec: the wire grammar of section 6 fixes the strings "public",
"private" and "group", and client.go converts the field with
string(topic.Type). -/
inductive TopicType where
  | Public : TopicType
  | Private : TopicType
  | Group : TopicType
deriving DecidableEq, Repr

/-- Wire string of a topic visibility, the Go conversion
string(topic.Type). -/
def TopicType.toWire : TopicType → String
  | TopicType.Public => "public"
  | TopicType.Private => "private"
  | TopicType.Group => "group"

/-- go: the topic struct (fields Name, Type, Clients as used by
src/client.go and src/unnamed/part_000). The Clients map from id to
client pointer is modelled as the insertion-ordered list of subscriber
ids. -/
structure Topic where
  name : String
  ttype : TopicType
  clients : List String
deriving DecidableEq, Repr

/-- go: the client struct in src/client.go. The stream channel is
modelled as the list of messages sent on it, in send order; publicTopics
is shared with the handler and therefore lives only on the Hub. -/
structure ClientState where
  id : String
  stream : List String
  status : Status
  privateTopics : List (String × Topic)
deriving DecidableEq, Repr

/-- go: sSEPubSubHandler in src/unnamed/part_000 (the fields the core
operations touch: the client map and the shared public topic map). -/
structure Hub where
  clients : List (String × ClientState)
  publicTopics : List (String × Topic)
deriving DecidableEq, Repr

/-- Lookup in a Go map modelled as an association list. -/
def lookupA (k : String) : List (String × α) → Option α
  | [] => none
  | (k₂, v) :: rest => if k = k₂ then some v else lookupA k rest

/-- Go map assignment: replace the entry in place when the key exists,
otherwise append. -/
def insertA (k : String) (v : α) : List (String × α) → List (String × α)
  | [] => [(k, v)]
  | (k₂, v₂) :: rest => if k = k₂ then (k, v) :: rest else (k₂, v₂) :: insertA k v rest

/-- Go map delete. -/
def eraseA (k : String) : List (String × α) → List (String × α)
  | [] => []
  | (k₂, v₂) :: rest => if k = k₂ then rest else (k₂, v₂) :: eraseA k rest

/-- go: topic.Clients[c.id] = c — keyed insertion into the subscriber
set; re-inserting a present id replaces the pointer and leaves the key
set unchanged. -/
def addSubscriber (cid : String) (l : List String) : List String :=
  if cid ∈ l then l else l ++ [cid]

/-- go: delete(topic.Clients, c.id). -/
def removeSubscriber (cid : String) (l : List String) : List String :=
  l.filter (fun x => decide (¬ x = cid))

/-- go: NewSSEPubSubHandler in src/unnamed/part_000 (the registry starts
with empty client and public-topic maps; public topics are registered at
configuration time outside the core). -/
def NewSSEPubSubHandler : Hub :=
  { clients := [], publicTopics := [] }

/-- Modelled from the spec: the unique-id generator of section 6
(github.com/google/uuid is an external collaborator); it must return a
value unique among currently-live client ids, which the returned string
is, being longer than every stored id. -/
def genId (s : Hub) : String :=
  String.join (s.clients.map (fun p => p.1)) ++ "!"

/-- go: sSEPubSubHandler.NewClient in src/client.go — empty id draws a
fresh one; an existing id returns the stored client unchanged; otherwise
a Waiting client with an empty stream and no private topics is inserted. -/
def NewClient (s : Hub) (id : String) : Hub × ClientState :=
  let id := if id = "" then genId s else id
  match lookupA id s.clients with
  | some cl => (s, cl)
  | none =>
      let cl : ClientState :=
        { id := id, stream := [], status := Status.Waiting, privateTopics := [] }
      ({ s with clients := insertA id cl s.clients }, cl)

/-- go: sSEPubSubHandler.getClient in src/client.go. -/
def getClient (s : Hub) (id : String) : Except String ClientState :=
  match lookupA id s.clients with
  | none => Except.error ("client " ++ id ++ " does not exists")
  | some c => Except.ok c

/-- Modelled from the spec: the Delivery Driver boundary of section 6
owns the Idle/Active transition ((a) set Active before the first read,
(c) set Idle on termination); nothing under src mutates status after
construction. -/
def setStatus (s : Hub) (cid : String) (st : Status) : Hub :=
  match lookupA cid s.clients with
  | none => s
  | some c => { s with clients := insertA cid { c with status := st } s.clients }

/-- Stream of a client in a hub state (empty for an unknown id). -/
def streamOf (s : Hub) (cid : String) : List String :=
  match lookupA cid s.clients with
  | none => []
  | some c => c.stream

/-- go: client.GetTopics in src/client.go — a fresh map filled with the
shared public topics and then the private topics, each keyed by
topic.Name (so a private topic overrides a same-named public one). -/
def GetTopics (s : Hub) (c : ClientState) : List (String × Topic) :=
  let topics := s.publicTopics.foldl (fun acc p => insertA p.2.name p.2 acc) []
  c.privateTopics.foldl (fun acc p => insertA p.2.name p.2 acc) topics

/-- go: client.GetSubscribedTopics in src/client.go — the topics of
GetTopics whose Clients map contains this client's id. -/
def GetSubscribedTopics (s : Hub) (c : ClientState) : List (String × Topic) :=
  (GetTopics s c).foldl
    (fun acc p => if c.id ∈ p.2.clients then insertA p.2.name p.2 acc else acc) []

/-- The sys entry built by a send of the "subscribed" notification in
src/client.go (sendNewSubscribedTopic): one entry, type subscribed, a
single list element naming the topic, no visibility. -/
def subscribedData (name : String) : EventData :=
  { sys := some [{ type := "subscribed", list := [{ name := name, type := "" }] }],
    updates := none }

/-- The frame built by sendUnsubscribedTopic in src/client.go. -/
def unsubscribedData (name : String) : EventData :=
  { sys := some [{ type := "unsubscribed", list := [{ name := name, type := "" }] }],
    updates := none }

/-- The update frame built by sendUpdate in src/client.go and by the
topic publisher: nil sys, one update entry carrying the topic name and
the opaque data. -/
def updateData (name : String) (data : GoValue) : EventData :=
  { sys := none, updates := some [{ topic := name, data := data }] }

/-- One topics list entry, go: eventDataSysList with Name and
string(topic.Type). -/
def mkTopicEntry (t : Topic) : EventDataSysList :=
  { name := t.name, type := TopicType.toWire t.ttype }

/-- One subscribed list entry (no visibility). -/
def mkSubEntry (t : Topic) : EventDataSysList :=
  { name := t.name, type := "" }

/-- The loop body of sendNewTopicsList in src/client.go: each iteration
sets Sys[0].Type to "topics" and appends the topic entry; here folded
directly over the single sys entry the guard created. -/
def topicsSysEntry (topics : List (String × Topic)) : EventDataSys :=
  topics.foldl (fun e p => { type := "topics", list := e.list ++ [mkTopicEntry p.2] })
    { type := "", list := [] }

/-- The frame built by sendNewTopicsList in src/client.go: sys is the
empty non-nil slice, filled with one topics entry only when the client
has topics at all; updates is nil. -/
def topicsListData (topics : List (String × Topic)) : EventData :=
  { sys := some (if topics.length > 0 then [topicsSysEntry topics] else []),
    updates := none }

/-- go: the channel send guarded by the status check that ends every
send helper in src/client.go — push onto the stream only while the
client is Receving, silently drop otherwise. -/
def pushIfReceving (s : Hub) (cid : String) (msg : String) : Hub :=
  match lookupA cid s.clients with
  | none => s
  | some c =>
      if c.status = Status.Receving then
        { s with clients := insertA cid { c with stream := c.stream ++ [msg] } s.clients }
      else s

/-- go: client.sendUpdate in src/client.go — marshal the single-update
frame, fail on a marshal error, otherwise push onto this client's own
stream only while Receving. -/
def sendUpdate (s : Hub) (cid : String) (top : Topic) (data : GoValue) :
    Hub × Except String Unit :=
  match marshalEventData (updateData top.name data) with
  | none => (s, Except.error ("json: unsupported type"))
  | some jsonData => (pushIfReceving s cid jsonData, Except.ok ())

/-- go: client.sendNewTopicsList in src/client.go. -/
def sendNewTopicsList (s : Hub) (cid : String) : Hub × Except String Unit :=
  match lookupA cid s.clients with
  | none => (s, Except.ok ())
  | some c =>
      match marshalEventData (topicsListData (GetTopics s c)) with
      | none => (s, Except.error ("json: unsupported type"))
      | some jsonData => (pushIfReceving s cid jsonData, Except.ok ())

/-- go: client.sendNewSubscribedTopic in src/client.go. -/
def sendNewSubscribedTopic (s : Hub) (cid : String) (top : Topic) :
    Hub × Except String Unit :=
  match marshalEventData (subscribedData top.name) with
  | none => (s, Except.error ("json: unsupported type"))
  | some jsonData => (pushIfReceving s cid jsonData, Except.ok ())

/-- go: client.sendUnsubscribedTopic in src/client.go. -/
def sendUnsubscribedTopic (s : Hub) (cid : String) (top : Topic) :
    Hub × Except String Unit :=
  match marshalEventData (unsubscribedData top.name) with
  | none => (s, Except.error ("json: unsupported type"))
  | some jsonData => (pushIfReceving s cid jsonData, Except.ok ())

/-- The topic-resolution order shared by Sub, Unsub and the round-trip
statements: private topics first, then the shared public topics. -/
def resolveTopic (s : Hub) (c : ClientState) (name : String) : Option Topic :=
  match lookupA name c.privateTopics with
  | some t => some t
  | none => lookupA name s.publicTopics

/-- The subscriber set of the topic a client resolves under a given name
(none when the client or the topic is unknown). -/
def subscribersOf (s : Hub) (cid : String) (name : String) : Option (List String) :=
  match lookupA cid s.clients with
  | none => none
  | some c => (resolveTopic s c name).map (fun t => t.clients)

/-- go: client.Sub in src/client.go — resolve the name (private first,
then public), error when it resolves to neither, otherwise add this
client's id to the topic's Clients map in place and send the
"subscribed" notification to this client's own stream. -/
def Sub (s : Hub) (cid : String) (name : String) : Hub × Except String Unit :=
  match lookupA cid s.clients with
  | none => (s, Except.error ("client " ++ cid ++ " does not exists"))
  | some c =>
      match lookupA name c.privateTopics with
      | some t =>
          let t2 := { t with clients := addSubscriber cid t.clients }
          let c2 := { c with privateTopics := insertA name t2 c.privateTopics }
          let s2 := { s with clients := insertA cid c2 s.clients }
          sendNewSubscribedTopic s2 cid t2
      | none =>
          match lookupA name s.publicTopics with
          | some t =>
              let t2 := { t with clients := addSubscriber cid t.clients }
              let s2 := { s with publicTopics := insertA name t2 s.publicTopics }
              sendNewSubscribedTopic s2 cid t2
          | none => (s, Except.error ("topic " ++ name ++ " does not exists"))

/-- go: client.Unsub in src/client.go — same resolution order; error when
the topic does not exist, error when this client is not in its Clients
map, otherwise delete the id and send the "unsubscribed" notification. -/
def Unsub (s : Hub) (cid : String) (name : String) : Hub × Except String Unit :=
  match lookupA cid s.clients with
  | none => (s, Except.error ("client " ++ cid ++ " does not exists"))
  | some c =>
      match lookupA name c.privateTopics with
      | some t =>
          if cid ∈ t.clients then
            let t2 := { t with clients := removeSubscriber cid t.clients }
            let c2 := { c with privateTopics := insertA name t2 c.privateTopics }
            let s2 := { s with clients := insertA cid c2 s.clients }
            sendUnsubscribedTopic s2 cid t2
          else
            (s, Except.error ("client " ++ cid ++ " is not subscribed to topic " ++ name))
      | none =>
          match lookupA name s.publicTopics with
          | some t =>
              if cid ∈ t.clients then
                let t2 := { t with clients := removeSubscriber cid t.clients }
                let s2 := { s with publicTopics := insertA name t2 s.publicTopics }
                sendUnsubscribedTopic s2 cid t2
              else
                (s, Except.error ("client " ++ cid ++ " is not subscribed to topic " ++ name))
          | none => (s, Except.error ("topic " ++ name ++ " does not exists"))

/-- go: client.NewPrivateTopic in src/client.go — error when a private
topic of that name exists, otherwise create the topic with no
subscribers, insert it and send the new topics list (whose own result is
discarded by the source). -/
def NewPrivateTopic (s : Hub) (cid : String) (name : String) : Hub × Except String Unit :=
  match lookupA cid s.clients with
  | none => (s, Except.error ("client " ++ cid ++ " does not exists"))
  | some c =>
      match lookupA name c.privateTopics with
      | some _ => (s, Except.error ("topic " ++ name ++ " already exists"))
      | none =>
          let top : Topic := { name := name, ttype := TopicType.Private, clients := [] }
          let c2 := { c with privateTopics := insertA name top c.privateTopics }
          let s2 := { s with clients := insertA cid c2 s.clients }
          ((sendNewTopicsList s2 cid).1, Except.ok ())

/-- go: client.Pub in src/client.go — error while the client is Waiting,
error when the name is not one of its private topics, otherwise delegate
to sendUpdate. -/
def Pub (s : Hub) (cid : String) (topicName : String) (message : GoValue) :
    Hub × Except String Unit :=
  match lookupA cid s.clients with
  | none => (s, Except.error ("client " ++ cid ++ " does not exists"))
  | some c =>
      if c.status = Status.Waiting then
        (s, Except.error ("client " ++ cid ++ " is not receving data"))
      else
        match lookupA topicName c.privateTopics with
        | none => (s, Except.error ("topic " ++ topicName ++ " does not exists"))
        | some t => sendUpdate s cid t message

/-- go: sSEPubSubHandler.RemoveClient in src/client.go — fetch the
client (error when absent), call Unsub for the name of every private
topic and then of every (shared) public topic, each result discarded,
and finally delete the id from the client map. -/
def RemoveClient (s : Hub) (id : String) : Hub × Except String Unit :=
  match getClient s id with
  | Except.error e => (s, Except.error e)
  | Except.ok cl =>
      let s1 := cl.privateTopics.foldl (fun acc p => (Unsub acc id p.2.name).1) s
      let s2 := s1.publicTopics.foldl (fun acc p => (Unsub acc id p.2.name).1) s1
      ({ s2 with clients := eraseA id s2.clients }, Except.ok ())

/-- Write through index i of a list, go: the fulldata.Sys[i] assignments
in client.generateInit; none models the index-out-of-range panic. -/
def setIdx : List α → Nat → (α → α) → Option (List α)
  | [], _, _ => none
  | x :: rest, 0, f => some (f x :: rest)
  | x :: rest, Nat.succ n, f =>
      match setIdx rest n f with
      | none => none
      | some rest2 => some (x :: rest2)

/-- go: client.generateInit in src/client.go — start sys as the empty
non-nil slice, append one blank entry when the client has topics and one
more when it has subscribed topics, then write the topics entry through
Sys[0] for every topic and the subscribed entry through Sys[1] for every
subscribed topic; none models the panic of an out-of-range write. -/
def generateInit (s : Hub) (c : ClientState) : Option String :=
  let topics := GetTopics s c
  let subtopics := GetSubscribedTopics s c
  let sys0 : List EventDataSys :=
    (if topics.length > 0 then [{ type := "", list := [] }] else []) ++
    (if subtopics.length > 0 then [{ type := "", list := [] }] else [])
  match topics.foldlM
      (fun acc p => setIdx acc 0
        (fun e => { type := "topics", list := e.list ++ [mkTopicEntry p.2] })) sys0 with
  | none => none
  | some sys1 =>
      match subtopics.foldlM
          (fun acc p => setIdx acc 1
            (fun e => { type := "subscribed", list := e.list ++ [mkSubEntry p.2] })) sys1 with
      | none => none
      | some sys2 => marshalEventData { sys := some sys2, updates := none }

/-- Modelled from the spec: client.generateUpdateData, called by the
handler's Pub in src/unnamed/part_000 but not itself among the source
files — per section 4.4 it encodes the single update envelope carrying
the topic name and the opaque data (the same frame client.sendUpdate
builds), and per its call site it returns the marshal error. -/
def generateUpdateData (t : Topic) (message : GoValue) : Except String String :=
  match marshalEventData (updateData t.name message) with
  | none => Except.error ("json: unsupported type")
  | some j => Except.ok j

/-- go: client.stream left-arrow jsonMessage in sSEPubSubHandler.Pub — a
raw channel send with no status guard, modelled as appending to the
stream of the addressed client. -/
def pushToStream (s : Hub) (cid : String) (msg : String) : Hub :=
  match lookupA cid s.clients with
  | none => s
  | some c =>
      { s with clients := insertA cid { c with stream := c.stream ++ [msg] } s.clients }

/-- The per-subscriber loop of sSEPubSubHandler.Pub in
src/unnamed/part_000: encode for the client, return the error to the
publisher as soon as one encoding fails, otherwise send on the client's
stream unconditionally. -/
def hubPubLoop (s : Hub) (t : Topic) (message : GoValue) :
    List String → Hub × Except String Unit
  | [] => (s, Except.ok ())
  | cid :: rest =>
      match generateUpdateData t message with
      | Except.error e => (s, Except.error e)
      | Except.ok jsonMessage => hubPubLoop (pushToStream s cid jsonMessage) t message rest

/-- go: sSEPubSubHandler.Pub in src/unnamed/part_000 — error when the
topic is not a registered public topic, otherwise run the per-subscriber
loop over the topic's Clients map. -/
def hubPub (s : Hub) (topic : String) (message : GoValue) : Hub × Except String Unit :=
  match lookupA topic s.publicTopics with
  | none => (s, Except.error ("topic " ++ topic ++ " does not exists"))
  | some t => hubPubLoop s t message t.clients

/-- Modelled from the spec: Client.send of the topic publisher (called by
Topic.Pub in src/_example/web/pubsub-sse.js but not itself among the
source files) — marshal the frame for this client, fail when the client
is gone or the frame cannot be encoded, push while Receving and drop
while Idle as section 4.2 prescribes. -/
def clientSend (s : Hub) (cid : String) (fulldata : EventData) :
    Hub × Except String Unit :=
  match lookupA cid s.clients with
  | none => (s, Except.error ("client " ++ cid ++ " does not exists"))
  | some c =>
      match marshalEventData fulldata with
      | none => (s, Except.error ("json: unsupported type"))
      | some j =>
          if c.status = Status.Receving then
            ({ s with clients := insertA cid { c with stream := c.stream ++ [j] } s.clients },
              Except.ok ())
          else
            (s, Except.ok ())

/-- go: Topic.Pub in src/_example/web/pubsub-sse.js — build the single
update frame once, then send it to every client of the call-time
subscriber snapshot, each send's error logged and discarded (fire and
forget), and return nil unconditionally. -/
def topicPub (s : Hub) (t : Topic) (msg : GoValue) : Hub × Except String Unit :=
  let fulldata := updateData t.name msg
  (t.clients.foldl (fun acc cid => (clientSend acc cid fulldata).1) s, Except.ok ())

/-! Concrete states used by the witnesses and counterexamples. -/

/-- A client in the Waiting (Idle) delivery state. -/
def exClientW : ClientState :=
  { id := "c1", stream := [], status := Status.Waiting, privateTopics := [] }

/-- A client in the Receving (Active) delivery state. -/
def exClientR : ClientState :=
  { id := "c1", stream := [], status := Status.Receving, privateTopics := [] }

/-- Scenario A: a fresh handler, client c1 created and set Active by the
delivery driver. -/
def scnA1 : Hub := setStatus (NewClient NewSSEPubSubHandler ("c1")).1 ("c1") Status.Receving

/-- Scenario A after CreatePrivateTopic("orders"). -/
def scnA2 : Hub × Except String Unit := NewPrivateTopic scnA1 ("c1") ("orders")

/-- Scenario A after Subscribe("orders"). -/
def scnA3 : Hub × Except String Unit := Sub scnA2.1 ("c1") ("orders")

/-- The payload of Scenario A. -/
def scnAMsg : GoValue := GoValue.obj [("id", GoValue.num 1)]

/-- Scenario A after Publish("orders", the payload). -/
def scnA4 : Hub × Except String Unit := Pub scnA3.1 ("c1") ("orders") scnAMsg

/-- The topics notification queued by CreatePrivateTopic in Scenario A. -/
def frameTopicsOrders : String :=
  "\x7b\"sys\":[\x7b\"type\":\"topics\",\"list\":[\x7b\"name\":\"orders\",\"type\":\"private\"\x7d]\x7d],\"updates\":null\x7d"

/-- The subscribed notification queued by Subscribe in Scenario A. -/
def frameSubscribedOrders : String :=
  "\x7b\"sys\":[\x7b\"type\":\"subscribed\",\"list\":[\x7b\"name\":\"orders\"\x7d]\x7d],\"updates\":null\x7d"

/-- The update frame the code actually queues in Scenario A: its sys
field is the marshaled nil slice, null. -/
def frameUpdateOrders : String :=
  "\x7b\"sys\":null,\"updates\":[\x7b\"topic\":\"orders\",\"data\":\x7b\"id\":1\x7d\x7d]\x7d"

/-- The update frame the claim expects in Scenario A, with an empty sys
array. -/
def frameClaimedOrders : String :=
  "\x7b\"sys\":[],\"updates\":[\x7b\"topic\":\"orders\",\"data\":\x7b\"id\":1\x7d\x7d]\x7d"

/-- A hub whose configuration registered the public topic x. -/
def scnB0 : Hub :=
  { clients := [],
    publicTopics := [("x", { name := "x", ttype := TopicType.Public, clients := [] })] }

/-- Client c1 added to that hub. -/
def scnB1 : Hub := (NewClient scnB0 ("c1")).1

/-- c1 subscribes to the public topic x. -/
def scnB2 : Hub × Except String Unit := Sub scnB1 ("c1") ("x")

/-- c1 then creates a private topic that shares the name x. -/
def scnB3 : Hub × Except String Unit := NewPrivateTopic scnB2.1 ("c1") ("x")

/-- RemoveClient("c1") on the shadowed configuration. -/
def scnB4 : Hub × Except String Unit := RemoveClient scnB3.1 ("c1")

/-- A public topic t that already carries c1 in its subscriber set. -/
def scnCTop : Topic := { name := "t", ttype := TopicType.Public, clients := ["c1"] }

/-- A hub holding a Waiting client c1 already subscribed to t. -/
def scnC0 : Hub := { clients := [("c1", exClientW)], publicTopics := [("t", scnCTop)] }

/-- Sub on the already-subscribed client. -/
def scnC1 : Hub × Except String Unit := Sub scnC0 ("c1") ("t")

/-- Unsub right after that Sub. -/
def scnC2 : Hub × Except String Unit := Unsub scnC1.1 ("c1") ("t")

/-- A hub holding a Waiting client c1 subscribed to the public topic
news. -/
def scnD0 : Hub :=
  { clients := [("c1", exClientW)],
    publicTopics := [("news", { name := "news", ttype := TopicType.Public, clients := ["c1"] })] }

/-- The handler-level publish on news with a string payload. -/
def scnD1 : Hub × Except String Unit := hubPub scnD0 ("news") (GoValue.str ("x"))

/-- A hub holding only the Receving client c1. -/
def scnE0 : Hub := { clients := [("c1", exClientR)], publicTopics := [] }

/-- A topic snapshot listing a gone subscriber before c1. -/
def scnETop : Topic := { name := "t", ttype := TopicType.Public, clients := ["ghost", "c1"] }

/-- The public topic t with c1 subscribed, for the Receving re-subscribe
witness. -/
def scnG0 : Hub := { clients := [("c1", exClientR)], publicTopics := [("t", scnCTop)] }

/-- The public topic t with no subscribers yet. -/
def scnHTop : Topic := { name := "t", ttype := TopicType.Public, clients := [] }

/-- A hub holding the Receving client c1 and the empty public topic t. -/
def scnH0 : Hub := { clients := [("c1", exClientR)], publicTopics := [("t", scnHTop)] }

/-- The wire string of the subscribed notification for a topic name. -/
def subscribedWire (name : String) : String :=
  "\x7b" ++ quote ("sys") ++ ":" ++
    ("[" ++ String.intercalate ("," )
      ([marshalSys { type := "subscribed", list := [{ name := name, type := "" }] }]) ++ "]") ++
    "," ++ quote ("updates") ++ ":" ++ "null" ++ "\x7d"

/-- The wire string of the unsubscribed notification for a topic name. -/
def unsubscribedWire (name : String) : String :=
  "\x7b" ++ quote ("sys") ++ ":" ++
    ("[" ++ String.intercalate ("," )
      ([marshalSys { type := "unsubscribed", list := [{ name := name, type := "" }] }]) ++ "]") ++
    "," ++ quote ("updates") ++ ":" ++ "null" ++ "\x7d"

theorem lookupA_insertA_self (k : String) (v : α) :
    ∀ l : List (String × α), lookupA k (insertA k v l) = some v
  | [] => by simp [insertA, lookupA]
  | (k₂, v₂) :: rest => by
      by_cases h : k = k₂
      · simp [insertA, h, lookupA]
      · simp [insertA, h, lookupA, lookupA_insertA_self k v rest]

theorem lookupA_insertA_ne (k k₂ : String) (v : α) (h : ¬ k = k₂) :
    ∀ l : List (String × α), lookupA k (insertA k₂ v l) = lookupA k l
  | [] => by simp [insertA, lookupA, h]
  | (k₃, v₃) :: rest => by
      by_cases h₂ : k₂ = k₃
      · subst h₂; simp [insertA, lookupA, h]
      · by_cases h₃ : k = k₃
        · simp [insertA, lookupA, h₂, h₃]
        · simp [insertA, lookupA, h₂, h₃, lookupA_insertA_ne k k₂ v h rest]

theorem insertA_length_none (k : String) (v : α) :
    ∀ l : List (String × α), lookupA k l = none → (insertA k v l).length = l.length + 1
  | [] => by simp [insertA]
  | (k₂, v₂) :: rest => by
      intro h
      by_cases h₂ : k = k₂
      · simp [lookupA, h₂] at h
      · simp only [lookupA, if_neg h₂] at h
        simp [insertA, h₂, insertA_length_none k v rest h]

theorem insertA_cancel (k : String) (v : α) :
    ∀ l : List (String × α), lookupA k l = some v → insertA k v l = l
  | [] => by simp [lookupA]
  | (k₂, v₂) :: rest => by
      intro h
      by_cases h₂ : k = k₂
      · subst h₂
        have hv : v₂ = v := by simpa [lookupA] using h
        subst hv
        simp [insertA]
      · simp only [lookupA, if_neg h₂] at h
        simp [insertA, h₂, insertA_cancel k v rest h]

theorem insertA_insertA (k : String) (v v₂ : α) :
    ∀ l : List (String × α), insertA k v (insertA k v₂ l) = insertA k v l
  | [] => by simp [insertA]
  | (k₂, w) :: rest => by
      by_cases h : k = k₂
      · simp [insertA, h]
      · simp [insertA, h, insertA_insertA k v v₂ rest]

/-! Subscriber-set lemmas. -/

theorem addSubscriber_not_mem (cid : String) (l : List String) (h : cid ∉ l) :
    addSubscriber cid l = l ++ [cid] := by
  simp [addSubscriber, h]

theorem addSubscriber_mem (cid : String) (l : List String) (h : cid ∈ l) :
    addSubscriber cid l = l := by
  simp [addSubscriber, h]

theorem removeSubscriber_not_mem (cid : String) :
    ∀ l : List String, cid ∉ l → removeSubscriber cid l = l := by
  intro l h
  simp only [removeSubscriber]
  refine List.filter_eq_self.mpr ?_
  intro a ha
  have : ¬ a = cid := fun hb => h (hb ▸ ha)
  simpa using this

theorem removeSubscriber_append_self (cid : String) (l : List String) (h : cid ∉ l) :
    removeSubscriber cid (l ++ [cid]) = l := by
  have h₁ := removeSubscriber_not_mem cid l h
  simp only [removeSubscriber] at h₁ ⊢
  rw [List.filter_append]
  have h₂ : List.filter (fun x => decide (¬ x = cid)) [cid] = [] := by simp
  rw [h₂, List.append_nil, h₁]

/-! Marshal and push lemmas. -/

theorem mapM_pure_some (f : α → β) :
    ∀ l : List α, l.mapM (fun x => some (f x)) = some (l.map f)
  | [] => rfl
  | x :: xs => by
      rw [List.mapM_cons, mapM_pure_some f xs]
      rfl

theorem marshal_sys_some (sys : List EventDataSys) :
    marshalEventData { sys := some sys, updates := none } =
      some ("\x7b" ++ quote ("sys") ++ ":" ++
        ("[" ++ String.intercalate ("," ) (sys.map marshalSys) ++ "]") ++ "," ++
        quote ("updates") ++ ":" ++ "null" ++ "\x7d") := by
  simp only [marshalEventData, marshalOptList, mapM_pure_some marshalSys sys]

theorem pushIfReceving_publics (s : Hub) (cid : String) (m : String) :
    (pushIfReceving s cid m).publicTopics = s.publicTopics := by
  unfold pushIfReceving
  cases lookupA cid s.clients with
  | none => rfl
  | some c =>
      by_cases h : c.status = Status.Receving
      · simp [h]
      · simp [h]

theorem pushIfReceving_spec (s : Hub) (cid : String) (m : String) (c : ClientState)
    (h : lookupA cid s.clients = some c) :
    pushIfReceving s cid m =
      if c.status = Status.Receving then
        { s with clients := insertA cid { c with stream := c.stream ++ [m] } s.clients }
      else s := by
  simp [pushIfReceving, h]

theorem sendNewSubscribedTopic_eq (s : Hub) (cid : String) (top : Topic) :
    sendNewSubscribedTopic s cid top =
      (pushIfReceving s cid (subscribedWire top.name), Except.ok ()) := by
  simp only [sendNewSubscribedTopic, subscribedData, marshal_sys_some, List.map,
    subscribedWire]

theorem sendUnsubscribedTopic_eq (s : Hub) (cid : String) (top : Topic) :
    sendUnsubscribedTopic s cid top =
      (pushIfReceving s cid (unsubscribedWire top.name), Except.ok ()) := by
  simp only [sendUnsubscribedTopic, unsubscribedData, marshal_sys_some, List.map,
    unsubscribedWire]

theorem sub_private_spec (s : Hub) (cid name : String) (c : ClientState) (T : Topic)
    (h : lookupA cid s.clients = some c)
    (hp : lookupA name c.privateTopics = some T) :
    Sub s cid name =
      ({ s with
          clients :=
            insertA cid
              { c with
                  privateTopics :=
                    insertA name { T with clients := addSubscriber cid T.clients }
                      c.privateTopics,
                  stream :=
                    if c.status = Status.Receving
                    then c.stream ++ [subscribedWire T.name] else c.stream }
              s.clients },
        Except.ok ()) := by
  simp only [Sub, h, hp, sendNewSubscribedTopic_eq]
  rw [pushIfReceving_spec _ _ _ _ (lookupA_insertA_self cid _ s.clients)]
  by_cases hs : c.status = Status.Receving
  · simp [hs, insertA_insertA]
  · simp [hs]

theorem sub_public_spec (s : Hub) (cid name : String) (c : ClientState) (T : Topic)
    (h : lookupA cid s.clients = some c)
    (hp : lookupA name c.privateTopics = none)
    (hq : lookupA name s.publicTopics = some T) :
    Sub s cid name =
      ({ s with
          publicTopics :=
            insertA name { T with clients := addSubscriber cid T.clients } s.publicTopics,
          clients :=
            if c.status = Status.Receving
            then insertA cid { c with stream := c.stream ++ [subscribedWire T.name] } s.clients
            else s.clients },
        Except.ok ()) := by
  simp only [Sub, h, hp, hq, sendNewSubscribedTopic_eq]
  by_cases hs : c.status = Status.Receving
  · simp [pushIfReceving, h, hs]
  · simp [pushIfReceving, h, hs]

theorem unsub_private_spec (s : Hub) (cid name : String) (c : ClientState) (T : Topic)
    (h : lookupA cid s.clients = some c)
    (hp : lookupA name c.privateTopics = some T)
    (hm : cid ∈ T.clients) :
    Unsub s cid name =
      ({ s with
          clients :=
            insertA cid
              { c with
                  privateTopics :=
                    insertA name { T with clients := removeSubscriber cid T.clients }
                      c.privateTopics,
                  stream :=
                    if c.status = Status.Receving
                    then c.stream ++ [unsubscribedWire T.name] else c.stream }
              s.clients },
        Except.ok ()) := by
  simp only [Unsub, h, hp, if_pos hm, sendUnsubscribedTopic_eq]
  rw [pushIfReceving_spec _ _ _ _ (lookupA_insertA_self cid _ s.clients)]
  by_cases hs : c.status = Status.Receving
  · simp [hs, insertA_insertA]
  · simp [hs]

theorem unsub_public_spec (s : Hub) (cid name : String) (c : ClientState) (T : Topic)
    (h : lookupA cid s.clients = some c)
    (hp : lookupA name c.privateTopics = none)
    (hq : lookupA name s.publicTopics = some T)
    (hm : cid ∈ T.clients) :
    Unsub s cid name =
      ({ s with
          publicTopics :=
            insertA name { T with clients := removeSubscriber cid T.clients } s.publicTopics,
          clients :=
            if c.status = Status.Receving
            then insertA cid { c with stream := c.stream ++ [unsubscribedWire T.name] } s.clients
            else s.clients },
        Except.ok ()) := by
  simp only [Unsub, h, hp, hq, if_pos hm, sendUnsubscribedTopic_eq]
  by_cases hs : c.status = Status.Receving
  · simp [pushIfReceving, h, hs]
  · simp [pushIfReceving, h, hs]

theorem unsub_not_subscribed (s : Hub) (cid name : String) (c : ClientState) (T : Topic)
    (h : lookupA cid s.clients = some c)
    (hres : resolveTopic s c name = some T)
    (hnm : cid ∉ T.clients) :
    Unsub s cid name =
      (s, Except.error ("client " ++ cid ++ " is not subscribed to topic " ++ name)) := by
  cases hp : lookupA name c.privateTopics with
  | some t =>
      have ht : t = T := by simpa [resolveTopic, hp] using hres
      subst ht
      simp [Unsub, h, hp, hnm]
  | none =>
      have hq : lookupA name s.publicTopics = some T := by
        simpa [resolveTopic, hp] using hres
      simp [Unsub, h, hp, hq, hnm]

/-- Structure eta for topics: rewriting the clients field with itself is
the identity. -/
theorem topic_eta (t : Topic) : ({ t with clients := t.clients } : Topic) = t := rfl

/-- Claim C5 (amended): for a client not already subscribed, a successful
Subscribe followed by Unsubscribe restores the resolved topic's
subscriber set exactly, and a further Unsubscribe then fails with the
not-subscribed error. -/
theorem sub_unsub_round_trip (s : Hub) (cid name : String) (c : ClientState) (T : Topic)
    (h : lookupA cid s.clients = some c)
    (hres : resolveTopic s c name = some T)
    (hnm : cid ∉ T.clients) :
    (Sub s cid name).2 = Except.ok () ∧
    (Unsub (Sub s cid name).1 cid name).2 = Except.ok () ∧
    subscribersOf (Unsub (Sub s cid name).1 cid name).1 cid name = some T.clients ∧
    (Unsub (Unsub (Sub s cid name).1 cid name).1 cid name).2 =
      Except.error ("client " ++ cid ++ " is not subscribed to topic " ++ name) := by
  by_cases hs : c.status = Status.Receving
  all_goals cases hp : lookupA name c.privateTopics with
  | some t =>
      have hT : t = T := by simpa [resolveTopic, hp] using hres
      subst hT
      have hsub := sub_private_spec s cid name c t h hp
      rw [addSubscriber_not_mem cid t.clients hnm] at hsub
      rw [hsub]
      have hrm := removeSubscriber_append_self cid t.clients hnm
      have hcan := insertA_cancel name t c.privateTopics hp
      refine ⟨rfl, ?_, ?_, ?_⟩ <;>
        simp [Unsub, sendUnsubscribedTopic_eq, pushIfReceving, subscribersOf, resolveTopic,
          lookupA_insertA_self, insertA_insertA, hrm, hcan, topic_eta, hnm, hs, hp]
  | none =>
      have hq : lookupA name s.publicTopics = some T := by
        simpa [resolveTopic, hp] using hres
      have hsub := sub_public_spec s cid name c T h hp hq
      rw [addSubscriber_not_mem cid T.clients hnm] at hsub
      rw [hsub]
      have hrm := removeSubscriber_append_self cid T.clients hnm
      have hcan := insertA_cancel name T s.publicTopics hq
      refine ⟨rfl, ?_, ?_, ?_⟩ <;>
        simp [Unsub, sendUnsubscribedTopic_eq, pushIfReceving, subscribersOf, resolveTopic,
          lookupA_insertA_self, insertA_insertA, hrm, hcan, topic_eta, hp, hq, h, hnm, hs]

/-- Claim C9 (amended): a repeated Sub on a topic the client is already
subscribed to returns success and leaves the subscriber set unchanged,
and the further "subscribed" notification reaches the client's queue
only while its status is Receving; while Waiting it is dropped. -/
theorem resubscribe_idempotent (s : Hub) (cid name : String) (c : ClientState) (T : Topic)
    (h : lookupA cid s.clients = some c)
    (hres : resolveTopic s c name = some T)
    (hm : cid ∈ T.clients) :
    (Sub s cid name).2 = Except.ok () ∧
    subscribersOf (Sub s cid name).1 cid name = some T.clients ∧
    (c.status = Status.Receving →
      streamOf (Sub s cid name).1 cid = c.stream ++ [subscribedWire T.name]) ∧
    (c.status = Status.Waiting → streamOf (Sub s cid name).1 cid = c.stream) := by
  cases hp : lookupA name c.privateTopics with
  | some t =>
      have hT : t = T := by simpa [resolveTopic, hp] using hres
      subst hT
      have hsub := sub_private_spec s cid name c t h hp
      rw [addSubscriber_mem cid t.clients hm, topic_eta,
        insertA_cancel name t c.privateTopics hp] at hsub
      rw [hsub]
      cases hcs : c.status <;>
        simp [subscribersOf, resolveTopic, streamOf, lookupA_insertA_self, hp, hcs]
  | none =>
      have hq : lookupA name s.publicTopics = some T := by
        simpa [resolveTopic, hp] using hres
      have hsub := sub_public_spec s cid name c T h hp hq
      rw [addSubscriber_mem cid T.clients hm, topic_eta,
        insertA_cancel name T s.publicTopics hq] at hsub
      rw [hsub]
      cases hcs : c.status <;>
        simp [subscribersOf, resolveTopic, streamOf, lookupA_insertA_self, hp, hq, h, hcs]

/-- Claim C3 (amended): on every client-level send path of client.go
(sendUpdate, sendNewTopicsList, sendNewSubscribedTopic,
sendUnsubscribedTopic) a message for a Waiting (Idle) client is dropped —
the hub state, and so the client's queue, is left unchanged — while the
operation completes; the handler-level Pub is not such a path. -/
theorem client_sends_drop_while_idle (s : Hub) (cid : String) (c : ClientState)
    (h : lookupA cid s.clients = some c) (hw : c.status = Status.Waiting) :
    (∀ top data, (sendUpdate s cid top data).1 = s) ∧
    ((sendNewTopicsList s cid).1 = s) ∧
    (∀ top, (sendNewSubscribedTopic s cid top).1 = s) ∧
    (∀ top, (sendUnsubscribedTopic s cid top).1 = s) := by
  have hpush : ∀ m, pushIfReceving s cid m = s := by
    intro m
    simp [pushIfReceving, h, hw]
  refine ⟨?_, ?_, ?_, ?_⟩
  · intro top data
    cases hm : marshalEventData (updateData top.name data) with
    | none => simp [sendUpdate, hm]
    | some j => simp [sendUpdate, hm, hpush]
  · cases hm : marshalEventData (topicsListData (GetTopics s c)) with
    | none => simp [sendNewTopicsList, h, hm]
    | some j => simp [sendNewTopicsList, h, hm, hpush]
  · intro top
    simp [sendNewSubscribedTopic_eq, hpush]
  · intro top
    simp [sendUnsubscribedTopic_eq, hpush]

/-- Claim C6: client.Pub fails with the not-receving error whenever the
client's status is Waiting, otherwise fails with the does-not-exists
error whenever the name is not one of its private topics, and only when
both checks pass does it delegate to sendUpdate, the delivery path. -/
theorem pub_gatekeeping (s : Hub) (cid topicName : String) (c : ClientState)
    (message : GoValue) (h : lookupA cid s.clients = some c) :
    (c.status = Status.Waiting →
      Pub s cid topicName message =
        (s, Except.error ("client " ++ cid ++ " is not receving data"))) ∧
    (c.status = Status.Receving → lookupA topicName c.privateTopics = none →
      Pub s cid topicName message =
        (s, Except.error ("topic " ++ topicName ++ " does not exists"))) ∧
    (∀ t, c.status = Status.Receving → lookupA topicName c.privateTopics = some t →
      Pub s cid topicName message = sendUpdate s cid t message) := by
  refine ⟨?_, ?_, ?_⟩
  · intro hw
    simp [Pub, h, hw]
  · intro hr hn
    simp [Pub, h, hr, hn]
  · intro t hr ht
    simp [Pub, h, hr, ht]

/-- Claim C7: NewClient with a non-empty id is idempotent — a second call
returns the same hub and the same client, the id maps to that client, a
fresh id adds exactly one entry, and no call path returns an error (the
operation has no error outcome at all). -/
theorem newClient_idempotent (s : Hub) (id : String) (hne : ¬ id = "") :
    NewClient (NewClient s id).1 id = NewClient s id ∧
    lookupA id (NewClient s id).1.clients = some (NewClient s id).2 ∧
    (lookupA id s.clients = none →
      (NewClient s id).1.clients.length = s.clients.length + 1) := by
  cases hl : lookupA id s.clients with
  | some cl =>
      refine ⟨?_, ?_, ?_⟩
      · simp [NewClient, hne, hl]
      · simp [NewClient, hne, hl]
      · intro hcontra
        simp [hl] at hcontra
  | none =>
      refine ⟨?_, ?_, ?_⟩
      · simp [NewClient, hne, hl, lookupA_insertA_self]
      · simp [NewClient, hne, hl, lookupA_insertA_self]
      · intro _
        simp [NewClient, hne, hl, insertA_length_none id _ s.clients hl]

theorem setIdx_some (f : α → α) :
    ∀ (l : List α) (i : Nat), i < l.length →
      ∃ l₂, setIdx l i f = some l₂ ∧ l₂.length = l.length
  | [], i => by intro h; simp at h
  | x :: rest, 0 => by
      intro _
      exact ⟨f x :: rest, rfl, by simp⟩
  | x :: rest, Nat.succ n => by
      intro h
      obtain ⟨l₂, h₁, h₂⟩ := setIdx_some f rest n (by simpa using h)
      exact ⟨x :: l₂, by simp [setIdx, h₁], by simp [h₂]⟩

theorem foldlM_topics_some :
    ∀ (xs : List (String × Topic)) (sys : List EventDataSys), 0 < sys.length →
      ∃ sys₂,
        xs.foldlM
          (fun acc p => setIdx acc 0
            (fun e => { type := "topics", list := e.list ++ [mkTopicEntry p.2] })) sys
          = some sys₂ ∧ sys₂.length = sys.length
  | [], sys => by intro _; exact ⟨sys, rfl, rfl⟩
  | p :: ps, sys => by
      intro h
      obtain ⟨t, h₁, h₂⟩ :=
        setIdx_some (fun e => { type := "topics", list := e.list ++ [mkTopicEntry p.2] }) sys 0 h
      obtain ⟨sys₂, h₃, h₄⟩ := foldlM_topics_some ps t (h₂ ▸ h)
      refine ⟨sys₂, ?_, by rw [h₄, h₂]⟩
      rw [List.foldlM_cons, h₁]
      exact h₃

theorem foldlM_subscribed_some :
    ∀ (xs : List (String × Topic)) (sys : List EventDataSys), 1 < sys.length →
      ∃ sys₂,
        xs.foldlM
          (fun acc p => setIdx acc 1
            (fun e => { type := "subscribed", list := e.list ++ [mkSubEntry p.2] })) sys
          = some sys₂ ∧ sys₂.length = sys.length
  | [], sys => by intro _; exact ⟨sys, rfl, rfl⟩
  | p :: ps, sys => by
      intro h
      obtain ⟨t, h₁, h₂⟩ :=
        setIdx_some (fun e => { type := "subscribed", list := e.list ++ [mkSubEntry p.2] }) sys 1 h
      obtain ⟨sys₂, h₃, h₄⟩ := foldlM_subscribed_some ps t (h₂ ▸ h)
      refine ⟨sys₂, ?_, by rw [h₄, h₂]⟩
      rw [List.foldlM_cons, h₁]
      exact h₃

theorem getSubscribedTopics_nil (s : Hub) (c : ClientState)
    (h : GetTopics s c = []) : GetSubscribedTopics s c = [] := by
  simp [GetSubscribedTopics, h]

/-- Claim C10: generateInit never indexes its sys slice out of bounds —
because the subscribed topics are always drawn from the topic list, a
non-empty subscribed set forces a non-empty topic set, so every Sys[0]
and Sys[1] write lands inside the slice and the encoder is total on
every client state. -/
theorem generateInit_isSome (s : Hub) (c : ClientState) : (generateInit s c).isSome := by
  by_cases ht : (GetTopics s c).length > 0
  · by_cases hsb : (GetSubscribedTopics s c).length > 0
    · have hsys0 :
        ((if (GetTopics s c).length > 0
            then ([{ type := "", list := [] }] : List EventDataSys) else []) ++
          (if (GetSubscribedTopics s c).length > 0
            then ([{ type := "", list := [] }] : List EventDataSys) else [])) =
          [{ type := "", list := [] }, { type := "", list := [] }] := by
        simp [ht, hsb]
      obtain ⟨sys₁, h₁, hl₁⟩ :=
        foldlM_topics_some (GetTopics s c)
          [{ type := "", list := [] }, { type := "", list := [] }] (by simp)
      obtain ⟨sys₂, h₂, hl₂⟩ :=
        foldlM_subscribed_some (GetSubscribedTopics s c) sys₁ (by rw [hl₁]; simp)
      simp only [generateInit, hsys0, h₁, h₂, marshal_sys_some, Option.isSome_some]
    · have hsn : GetSubscribedTopics s c = [] := by
        cases hg : GetSubscribedTopics s c with
        | nil => rfl
        | cons a l => rw [hg] at hsb; simp at hsb
      obtain ⟨sys₁, h₁, hl₁⟩ :=
        foldlM_topics_some (GetTopics s c) [{ type := "", list := [] }] (by simp)
      simp [generateInit, hsn, ht, h₁, marshal_sys_some]
  · have htn : GetTopics s c = [] := by
      cases hg : GetTopics s c with
      | nil => rfl
      | cons a l => rw [hg] at ht; simp at ht
    have hsn : GetSubscribedTopics s c = [] := getSubscribedTopics_nil s c htn
    simp [generateInit, htn, hsn, marshal_sys_some]

theorem clientSend_lookup_ne (s : Hub) (cid cid₂ : String) (d : EventData)
    (h : ¬ cid = cid₂) :
    lookupA cid (clientSend s cid₂ d).1.clients = lookupA cid s.clients := by
  cases h₂ : lookupA cid₂ s.clients with
  | none => simp [clientSend, h₂]
  | some c₂ =>
      cases hm : marshalEventData d with
      | none => simp [clientSend, h₂, hm]
      | some j =>
          by_cases hs : c₂.status = Status.Receving
          · simp [clientSend, h₂, hm, hs, lookupA_insertA_ne cid cid₂ _ h]
          · simp [clientSend, h₂, hm, hs]

theorem clientSend_self (s : Hub) (cid : String) (d : EventData) (c : ClientState)
    (j : String) (h : lookupA cid s.clients = some c)
    (hr : c.status = Status.Receving) (hm : marshalEventData d = some j) :
    lookupA cid (clientSend s cid d).1.clients = some { c with stream := c.stream ++ [j] } := by
  simp [clientSend, h, hm, hr, lookupA_insertA_self]

theorem foldl_clientSend_not_mem (cid : String) (d : EventData) :
    ∀ (l : List String) (s : Hub), cid ∉ l →
      lookupA cid ((l.foldl (fun acc x => (clientSend acc x d).1) s)).clients =
        lookupA cid s.clients
  | [], s => by intro _; rfl
  | x :: xs, s => by
      intro h
      rw [List.foldl_cons,
        foldl_clientSend_not_mem cid d xs _ (fun hx => h (List.mem_cons_of_mem x hx)),
        clientSend_lookup_ne s cid x d (fun he => h (he ▸ List.mem_cons_self x xs))]

theorem foldl_clientSend_mem (cid : String) (d : EventData) (j : String)
    (hmj : marshalEventData d = some j) :
    ∀ (l : List String) (s : Hub) (c : ClientState), cid ∈ l → l.Nodup →
      lookupA cid s.clients = some c → c.status = Status.Receving →
      lookupA cid ((l.foldl (fun acc x => (clientSend acc x d).1) s)).clients =
        some { c with stream := c.stream ++ [j] }
  | [], s => by intro c hmem; cases hmem
  | x :: xs, s => by
      intro c hmem hnd h hr
      rcases List.mem_cons.mp hmem with he | htail
      · subst he
        rw [List.foldl_cons,
          foldl_clientSend_not_mem cid d xs _ (by simpa using (List.nodup_cons.mp hnd).1),
          clientSend_self s cid d c j h hr hmj]
      · have hne : ¬ cid = x := by
          intro he
          exact (List.nodup_cons.mp hnd).1 (he ▸ htail)
        rw [List.foldl_cons]
        exact foldl_clientSend_mem cid d j hmj xs _ c htail (List.nodup_cons.mp hnd).2
          (by rw [clientSend_lookup_ne s cid x d hne]; exact h) hr

/-- Claim C1 (amended): the topic-level Pub is fire-and-forget — it
returns success unconditionally, and every Receving subscriber of the
call-time snapshot still receives the encoded update on its own queue no
matter which other subscribers' sends fail; the handler-level Pub
instead propagates a per-subscriber encoding failure to the publisher
and aborts the remaining deliveries. -/
theorem topicPub_fire_and_forget (s : Hub) (t : Topic) (msg : GoValue) :
    (topicPub s t msg).2 = Except.ok () ∧
    (∀ cid c j, cid ∈ t.clients → t.clients.Nodup →
      lookupA cid s.clients = some c → c.status = Status.Receving →
      marshalEventData (updateData t.name msg) = some j →
      lookupA cid (topicPub s t msg).1.clients =
        some { c with stream := c.stream ++ [j] }) := by
  refine ⟨rfl, ?_⟩
  intro cid c j hmem hnd h hr hmj
  simp only [topicPub]
  exact foldl_clientSend_mem cid (updateData t.name msg) j hmj t.clients s c hmem hnd h hr

/-- Claim C1 (counterexample): on a public topic with a non-empty
subscriber snapshot, the handler-level Pub returns the per-subscriber
encoding failure to the publisher instead of succeeding regardless, and
delivers to nobody. -/
theorem hubPub_propagates_encoding_failure :
    (lookupA ("news") scnD0.publicTopics).map (fun t => t.clients) = some (["c1"]) ∧
    hubPub scnD0 ("news") (GoValue.unsupported ("chan")) =
      (scnD0, Except.error ("json: unsupported type")) :=
  ⟨rfl, rfl⟩

/-- Claim C1 (witness): a snapshot listing a gone subscriber before a
live Receving one — the topic-level Pub still succeeds and the live
subscriber still receives the update. -/
theorem topicPub_fire_and_forget_witness :
    lookupA ("ghost") scnE0.clients = none ∧
    (topicPub scnE0 scnETop (GoValue.str ("x"))).2 = Except.ok () ∧
    lookupA ("c1") (topicPub scnE0 scnETop (GoValue.str ("x"))).1.clients =
      some { exClientR with
              stream := ["\x7b\"sys\":null,\"updates\":[\x7b\"topic\":\"t\",\"data\":\"x\"\x7d]\x7d"] } := by
  refine ⟨rfl, (topicPub_fire_and_forget scnE0 scnETop (GoValue.str ("x"))).1, ?_⟩
  exact (topicPub_fire_and_forget scnE0 scnETop (GoValue.str ("x"))).2 ("c1") exClientR
    ("\x7b\"sys\":null,\"updates\":[\x7b\"topic\":\"t\",\"data\":\"x\"\x7d]\x7d")
    (by decide) (by decide) rfl rfl rfl

/-- Claim C2 (counterexample): Scenario A succeeds but the frame the
claim names, with an empty sys array, is never placed on c1's queue. -/
theorem scenarioA_claimed_frame_never_queued :
    scnA4.2 = Except.ok () ∧
    frameClaimedOrders ∉ streamOf scnA4.1 ("c1") :=
  ⟨rfl, by decide⟩

/-- Claim C2 (amended): Scenario A succeeds end to end and pushes onto
c1's queue the topics notification, the subscribed notification, and the
update frame whose sys field is null (the marshaled nil slice), not an
empty array. -/
theorem scenarioA_publishes_null_sys_frame :
    scnA2.2 = Except.ok () ∧ scnA3.2 = Except.ok () ∧ scnA4.2 = Except.ok () ∧
    streamOf scnA4.1 ("c1") = [frameTopicsOrders, frameSubscribedOrders, frameUpdateOrders] :=
  ⟨rfl, rfl, rfl, by decide⟩

/-- Claim C3 (counterexample): the handler-level Pub places its message
on the queue of a subscriber whose status is Waiting — the Idle drop
does not cover this delivery path. -/
theorem hubPub_pushes_to_idle_client :
    lookupA ("c1") scnD0.clients = some exClientW ∧
    exClientW.status = Status.Waiting ∧
    scnD1.2 = Except.ok () ∧
    streamOf scnD1.1 ("c1") =
      ["\x7b\"sys\":null,\"updates\":[\x7b\"topic\":\"news\",\"data\":\"x\"\x7d]\x7d"] :=
  ⟨rfl, rfl, rfl, rfl⟩

/-- Claim C3 (witness): all four client-level send paths leave the hub
unchanged for a concrete Waiting client. -/
theorem client_sends_drop_while_idle_witness :
    (sendUpdate scnC0 ("c1") scnCTop (GoValue.str ("m"))).1 = scnC0 ∧
    (sendNewTopicsList scnC0 ("c1")).1 = scnC0 ∧
    (sendNewSubscribedTopic scnC0 ("c1") scnCTop).1 = scnC0 ∧
    (sendUnsubscribedTopic scnC0 ("c1") scnCTop).1 = scnC0 := by
  have H := client_sends_drop_while_idle scnC0 ("c1") exClientW rfl rfl
  exact ⟨H.1 scnCTop (GoValue.str ("m")), H.2.1, H.2.2.1 scnCTop, H.2.2.2 scnCTop⟩

/-- Claim C4: a client subscribed to public topic x that also owns a
private topic named x — RemoveClient returns success and deletes the
client, yet the client id is still in the public topic's subscriber set,
because Unsub resolves the private name first both times. -/
theorem removeClient_leaves_dangling_subscriber :
    scnB2.2 = Except.ok () ∧ scnB3.2 = Except.ok () ∧
    scnB4.2 = Except.ok () ∧
    lookupA ("c1") scnB4.1.clients = none ∧
    (lookupA ("x") scnB4.1.publicTopics).map (fun t => t.clients) = some (["c1"]) :=
  ⟨rfl, rfl, rfl, rfl, rfl⟩

/-- Claim C5 (counterexample): for a client already subscribed, Sub then
Unsub both succeed yet the subscriber set shrinks from the client's id to
empty — not equal to what it was before the pair. -/
theorem sub_unsub_shrinks_when_already_subscribed :
    scnC1.2 = Except.ok () ∧ scnC2.2 = Except.ok () ∧
    subscribersOf scnC0 ("c1") ("t") = some (["c1"]) ∧
    subscribersOf scnC2.1 ("c1") ("t") = some ([]) ∧
    subscribersOf scnC2.1 ("c1") ("t") ≠ subscribersOf scnC0 ("c1") ("t") :=
  ⟨rfl, rfl, rfl, rfl, by decide⟩

/-- Claim C5 (witness): the round trip at a concrete unsubscribed
Receving client restores the empty subscriber set and the third Unsub
fails with the not-subscribed error. -/
theorem sub_unsub_round_trip_witness :
    (Sub scnH0 ("c1") ("t")).2 = Except.ok () ∧
    (Unsub (Sub scnH0 ("c1") ("t")).1 ("c1") ("t")).2 = Except.ok () ∧
    subscribersOf (Unsub (Sub scnH0 ("c1") ("t")).1 ("c1") ("t")).1 ("c1") ("t") = some ([]) ∧
    (Unsub (Unsub (Sub scnH0 ("c1") ("t")).1 ("c1") ("t")).1 ("c1") ("t")).2 =
      Except.error ("client c1 is not subscribed to topic t") :=
  sub_unsub_round_trip scnH0 ("c1") ("t") exClientR scnHTop rfl rfl (by decide)

/-- Claim C6 (witness): Pub on a concrete Waiting client fails with the
not-receving error and changes nothing. -/
theorem pub_gatekeeping_witness :
    Pub scnC0 ("c1") ("t") (GoValue.str ("m")) =
      (scnC0, Except.error ("client c1 is not receving data")) :=
  (pub_gatekeeping scnC0 ("c1") ("t") exClientW (GoValue.str ("m")) rfl).1 rfl

/-- Claim C7 (witness): two NewClient calls with id a on the fresh
handler coincide and leave exactly one entry. -/
theorem newClient_idempotent_witness :
    NewClient (NewClient NewSSEPubSubHandler ("a")).1 ("a") =
      NewClient NewSSEPubSubHandler ("a") ∧
    (NewClient NewSSEPubSubHandler ("a")).1.clients.length = 1 := by
  have H := newClient_idempotent NewSSEPubSubHandler ("a") (by decide)
  exact ⟨H.1, H.2.2 rfl⟩

/-- Claim C9 (counterexample): a repeated Sub by a Waiting client
succeeds and leaves the subscriber set unchanged, but no further
"subscribed" notification reaches its queue. -/
theorem resub_notification_dropped_while_idle :
    scnC1.2 = Except.ok () ∧
    subscribersOf scnC1.1 ("c1") ("t") = some (["c1"]) ∧
    streamOf scnC1.1 ("c1") = [] :=
  ⟨rfl, rfl, rfl⟩

/-- Claim C9 (witness): a repeated Sub by a Receving client succeeds,
leaves the subscriber set unchanged and queues one more subscribed
notification. -/
theorem resubscribe_idempotent_witness :
    (Sub scnG0 ("c1") ("t")).2 = Except.ok () ∧
    subscribersOf (Sub scnG0 ("c1") ("t")).1 ("c1") ("t") = some (["c1"]) ∧
    streamOf (Sub scnG0 ("c1") ("t")).1 ("c1") = [subscribedWire ("t")] := by
  have H := resubscribe_idempotent scnG0 ("c1") ("t") exClientR scnCTop rfl rfl (by decide)
  exact ⟨H.1, H.2.1, H.2.2.1 rfl⟩

end PubSubSSE
